import Mathlib

/-!
# Shallow embedding of the libimage PNG decoder

This file embeds, over `Nat` and `List Nat`, the C sources of the libimage
repository (`src/libimage.c`, `src/png.c`, `src/zlib.c`, `src/common.c`) and
settles the claims of the specification against that embedding.

Modelling conventions, used throughout:
* A byte buffer (`uint8_t *` plus a length) is a `List Nat`; a pointer into
  it is an index.  Dereferencing applies `% 256`, which encodes the
  `uint8_t` type of the pointed-to memory.
* Machine integers are `Nat` (for unsigned types) or `Int` (where the C
  computes with a signed `int` and the sign matters); wrap-around is made
  explicit with `% 2^32` where it can occur.
* The C mask-and-shift idiom on contiguous bit fields of an unsigned value
  is rendered arithmetically: `v & (2^n - 1)` as `v % 2^n`, `v >> n` as
  `v / 2^n`, `v << n` as `v * 2^n`.  Non-contiguous masks (such as
  `num & (num - 1)`) keep the bitwise operators.
* `malloc`/`realloc` are assumed to succeed (the out-of-memory paths carry
  no claim); uninitialised memory is modelled as zero bytes, noted at each
  place where the C actually reads such memory.
* Unbounded C loops are given an explicit fuel parameter; every claim below
  is settled on runs that exit well within the supplied fuel.
* The build compiles without `LIBIMAGE_PNG_CHECK_CRC` (no build file defines
  it), so the compile-gated chunk-CRC comparison is not part of the code
  under `#ifdef` and is not embedded.
-/

namespace Libimage

/-! ## Error codes (src/common.h, anonymous enum) -/

def LIBIMAGE_PNG_ERROR_HEADER : Nat := 1
def LIBIMAGE_PNG_HUFFMAN_BAD_CODE_LENGTHS : Nat := 2
def LIBIMAGE_PNG_ERROR_IHDR_INTERLACE : Nat := 3
def LIBIMAGE_PNG_ERROR_BIG_IMAGE : Nat := 4
def LIBIMAGE_PNG_ERROR_IHDR_NOT_FOUND : Nat := 5
def LIBIMAGE_PNG_ERROR_INVALID_FILE : Nat := 6
def LIBIMAGE_PNG_ERROR_ZERO_SIZE : Nat := 7
def LIBIMAGE_PNG_ERROR_IDAT_SIZE_LIMIT : Nat := 8
def LIBIMAGE_PNG_ERROR_IHDR_BIT_DEPTH : Nat := 9
def LIBIMAGE_PNG_ERROR_CORRUPT_IHDR : Nat := 10
def LIBIMAGE_PNG_ERROR_IHDR_COLOUR_TYPE : Nat := 11
def LIBIMAGE_PNG_ERROR_IHDR_BIT_DEPTH_COMBINATION : Nat := 12
def LIBIMAGE_PNG_ERROR_CRC_NOT_MATCH : Nat := 13
def LIBIMAGE_PNG_ERROR_MULTIPLE_IHDR : Nat := 14
def LIBIMAGE_PNG_ERROR_NO_IDAT : Nat := 15
def LIBIMAGE_PNG_ERROR_NO_PLTE : Nat := 16
def LIBIMAGE_PNG_ERROR_GAMA_AFTER_PLTE : Nat := 17
def LIBIMAGE_PNG_ERROR_MULTIPLE_GAMA : Nat := 18
def LIBIMAGE_PNG_ERROR_UNEXPECTED_PLTE : Nat := 19
def LIBIMAGE_ERROR_TYPE_NOT_SUPPORTED : Nat := 20
def LIBIMAGE_ERROR_ZBUF_UNREACHABLE_STATE : Nat := 21
def LIBIMAGE_ERROR_INVALID_ZLIB_VALUE : Nat := 22
def LIBIMAGE_ERROR_OUT_OF_MEMORY : Nat := 23
def LIBIMAGE_PNG_ERROR_ZLIB_COMPRESSION : Nat := 24
def LIBIMAGE_ERROR_ZLIB_HEADER_CORRUPTED : Nat := 25
def LIBIMAGE_PNG_ERROR_PRESET_DICT : Nat := 26
def LIBIMAGE_PNG_ERROR_CORRUPTED_FILE : Nat := 27
def LIBIMAGE_ERROR_MEMORY_ERROR : Nat := 28

/-- `LIBIMAGE_TYPE_PNG` (src/common.h). -/
def LIBIMAGE_TYPE_PNG : Nat := 1

/-- `LIBIMAGE_PNG_MAX_IMAGE_SIZE = 1 << 24` (src/png.h). -/
def LIBIMAGE_PNG_MAX_IMAGE_SIZE : Nat := 16777216

/-! ## Memory access helpers -/

/-- Dereference a `uint8_t` at index `i` of a buffer.  The `% 256` encodes
the `uint8_t` type; out-of-bounds reads (undefined behaviour in C) are
modelled as 0. -/
def byteAt (data : List Nat) (i : Nat) : Nat := data.getD i 0 % 256

/-- A `*(uint32_t*)p` load on the (little-endian) host: four bytes,
least-significant first. -/
def loadLE32 (data : List Nat) (i : Nat) : Nat :=
  byteAt data i + 256 * byteAt data (i+1) + 65536 * byteAt data (i+2) +
    16777216 * byteAt data (i+3)

/-- A `*(uint64_t*)p` load on the (little-endian) host. -/
def loadLE64 (data : List Nat) (i : Nat) : Nat :=
  loadLE32 data i + 4294967296 * loadLE32 data (i+4)

/-- Embeds `u32_endian_swap` (src/common.c:30, identical `u32_bswap` at
src/libimage.c:411): on the little-endian host the function byte-swaps a
`uint32_t`.  Each C term `(value & 0xff000000) >> 24`, `(value & 0x00ff0000)
>> 8`, `(value & 0x0000ff00) << 8`, `(value & 0x000000ff) << 24` is the
extraction of one byte field of a value `< 2^32`, rendered arithmetically;
the `|` of the four disjoint byte fields is `+`. -/
def u32_endian_swap (value : Nat) : Nat :=
  value / 16777216 % 256 + value / 65536 % 256 * 256 +
    value / 256 % 256 * 65536 + value % 256 * 16777216

/-- Embeds `bit_reverse` (src/common.c:44): reverses the low `bits` bits of
`value` by pairing positions `i` and `bits - (i + 1)` for
`0 ≤ i ≤ bits / 2`. -/
def bit_reverse (value : Nat) (bits : Nat) : Nat :=
  (List.range (bits / 2 + 1)).foldl
    (fun res i =>
      let inv := bits - (i + 1)
      (res ||| (value / 2 ^ i % 2) * 2 ^ inv) ||| (value / 2 ^ inv % 2) * 2 ^ i)
    0

/-- `uint32_t` subtraction `a - b` with wrap-around (only reachable with
`b ≤ a` in the states the decoder actually visits). -/
def sub32 (a b : Nat) : Nat := (a + 4294967296 - b) % 4294967296

/-! ## zlib buffer (src/zlib.h `LibImageZlibBuffer`, src/zlib.c) -/

/-- Embeds `struct libimage_zlib_buf` (src/zlib.h).  `data`/`pos` model the
`buf`/`buf_end` cursor pair (`pos` is the offset of `buf` from the start,
`data.length` plays `buf_end`); `sliding_window_cur_pos` is omitted — the C
keeps it equal to `sliding_window + sliding_window_off` and never reads it
elsewhere. -/
structure LibImageZlibBuffer where
  data : List Nat := []
  pos : Nat := 0
  sliding_window : List Nat := []
  sliding_window_off : Nat := 0
  sliding_window_limit : Nat := 0
  code_buf : Nat := 0
  code_buf_bits : Nat := 0
  error : Nat := 0
  allocated_window : Bool := false

/-- The freshly allocated sliding window of `zbuf_init` (src/zlib.c:27-33):
32 KiB zeroed by the `memset`, followed by 256 bytes set to `0xff`. -/
def sliding_window_init : List Nat :=
  List.replicate 32768 0 ++ List.replicate 256 255

/-- Embeds `zbuf_init` (src/zlib.c:13); `malloc` is assumed to succeed. -/
def zbuf_init (contents : List Nat) (content_len : Nat) (alloc_window : Bool) :
    LibImageZlibBuffer :=
  let base : LibImageZlibBuffer :=
    { data := contents.take content_len, pos := 0 }
  if alloc_window then
    { base with
      sliding_window := sliding_window_init,
      sliding_window_limit := 32768,
      allocated_window := true }
  else base

/-- Embeds `zbuf_append_to_sliding_window` (src/zlib.c:40).  `value` is the
`size_value` bytes behind the `value` pointer; the `memcpy` overwrites the
window at the current offset. -/
def zbuf_append_to_sliding_window (buf : LibImageZlibBuffer)
    (value : List Nat) : Int × LibImageZlibBuffer :=
  if buf.sliding_window_limit < value.length + buf.sliding_window_off then
    (-1, buf)
  else
    (0, { buf with
          sliding_window :=
            buf.sliding_window.take buf.sliding_window_off ++ value ++
              buf.sliding_window.drop (buf.sliding_window_off + value.length),
          sliding_window_off := buf.sliding_window_off + value.length })

/-- Embeds `zbuf_deinit` (src/zlib.c:48): frees the window
(`sliding_window = NULL`). -/
def zbuf_deinit (buf : LibImageZlibBuffer) : LibImageZlibBuffer :=
  if buf.allocated_window then { buf with sliding_window := [] } else buf

/-- Embeds `zbuf_is_eof` (src/zlib.c:56). -/
def zbuf_is_eof (buf : LibImageZlibBuffer) : Bool :=
  buf.data.length ≤ buf.pos

/-- Embeds `zbuf_get_byte` (src/zlib.c:61): 0 at end of input, otherwise
the next byte, advancing the cursor. -/
def zbuf_get_byte (buf : LibImageZlibBuffer) : Nat × LibImageZlibBuffer :=
  if zbuf_is_eof buf then (0, buf)
  else (byteAt buf.data buf.pos, { buf with pos := buf.pos + 1 })

/-- One body of the `do`/`while` of `zbuf_fill_code_buf` followed by up to
`fuel` further iterations.  The loop runs at most four bodies from any
state (`code_buf_bits` grows by 8 per body and the loop exits once it
exceeds 24), so the fuel of 4 supplied by `zbuf_fill_code_buf` is exact. -/
def zbuf_fill_aux : Nat → LibImageZlibBuffer → LibImageZlibBuffer
  | 0, buf => buf
  | fuel + 1, buf =>
    if 2 ^ buf.code_buf_bits ≤ buf.code_buf then
      { buf with pos := buf.data.length }
    else
      let p := zbuf_get_byte buf
      let buf' : LibImageZlibBuffer := { p.2 with
        code_buf := (p.2.code_buf ||| p.1 * 2 ^ p.2.code_buf_bits) % 4294967296,
        code_buf_bits := p.2.code_buf_bits + 8 }
      if buf'.code_buf_bits ≤ 24 then zbuf_fill_aux fuel buf' else buf'

/-- Embeds `zbuf_fill_code_buf` (src/zlib.c:66). -/
def zbuf_fill_code_buf (buf : LibImageZlibBuffer) : LibImageZlibBuffer :=
  zbuf_fill_aux 4 buf

/-- Embeds `zbuf_get_n_bits` (src/zlib.c:79): refill if short, take the low
`n` bits, shift them out.  `code_buf & ((1 << n) - 1)` is `% 2^n`,
`code_buf >> n` is `/ 2^n`; the `uint32_t` decrement of `code_buf_bits`
wraps (it only under-runs in states whose invariant is already broken). -/
def zbuf_get_n_bits (buf : LibImageZlibBuffer) (n : Nat) :
    Nat × LibImageZlibBuffer :=
  let s := if buf.code_buf_bits < n then zbuf_fill_code_buf buf else buf
  (s.code_buf % 2 ^ n,
   { s with code_buf := s.code_buf / 2 ^ n,
            code_buf_bits := sub32 s.code_buf_bits n })

/-- Embeds `zbuf_parse_header` (src/zlib.c:89): reads CMF and FLG and
validates the zlib header.  `cmf & 15` is `% 16`, `flags & 32` tests bit
5. -/
def zbuf_parse_header (buf : LibImageZlibBuffer) : LibImageZlibBuffer :=
  let p1 := zbuf_get_byte buf
  let cmf := p1.1
  let p2 := zbuf_get_byte p1.2
  let flags := p2.1
  let s := p2.2
  let cm := cmf % 16
  if zbuf_is_eof s || (cmf * 256 + flags) % 31 ≠ 0 then
    { s with error := LIBIMAGE_ERROR_ZLIB_HEADER_CORRUPTED }
  else if flags / 32 % 2 ≠ 0 then
    { s with error := LIBIMAGE_PNG_ERROR_PRESET_DICT }
  else if cm ≠ 8 then
    { s with error := LIBIMAGE_PNG_ERROR_ZLIB_COMPRESSION }
  else s

/-! ## Image info (src/common.h `LibImageImageInfo`) -/

/-- Embeds `struct libimage_image_info` (src/common.h).  The capacity
fields `cd_size`/`un_size` and the unused `processed_data` triple are
omitted: they only steer `realloc` (assumed to succeed) and never reach an
observable value.  `compressed_data` and `uncompressed_data` hold the bytes
written so far (their lengths are `cd_offset`/`un_offset`, which are kept
explicitly to mirror the C). -/
structure LibImageImageInfo where
  width : Nat := 0
  height : Nat := 0
  gamma : Nat := 0
  color_type : Nat := 0
  compressed_data : List Nat := []
  cd_offset : Nat := 0
  uncompressed_data : List Nat := []
  un_offset : Nat := 0
  error : Nat := 0

/-- Embeds `write_uncompressed_data` (src/zlib.c:109): grows the output
buffer (always succeeds here) and copies `size` bytes from `opt_value` or,
when that is `NULL` (`none`), from the current input cursor `buf->buf`
(which it does not advance — the increment on line 141 only touches the
local copy `src_used`). -/
def write_uncompressed_data (buf : LibImageZlibBuffer)
    (info : LibImageImageInfo) (size : Nat) (opt_value : Option (List Nat)) :
    LibImageImageInfo :=
  let src : List Nat :=
    match opt_value with
    | some v => v
    | none => buf.data.drop buf.pos
  let bytes := (List.range size).map (fun i => src.getD i 0 % 256)
  { info with uncompressed_data := info.uncompressed_data ++ bytes,
              un_offset := info.un_offset + size }

/-! ## Huffman tables (src/huffman.h, src/png.c) -/

/-- Embeds `struct libimage_huffman` (src/huffman.h).  The `entries` array
of `entry_count` `{bits_used, code}` pairs is a function from the index;
`malloc` leaves the entries uninitialised, modelled as `(0, 0)`. -/
structure LibImageHuffman where
  max_code_in_bits : Nat
  entry_count : Nat
  entries : Nat → Nat × Nat

/-- Embeds `new_huffman` (src/png.c:146). -/
def new_huffman (max_code_in_bits : Nat) : LibImageHuffman :=
  { max_code_in_bits := max_code_in_bits,
    entry_count := 2 ^ max_code_in_bits,
    entries := fun _ => (0, 0) }

/-- Embeds the `png_length_from_spec` table (src/png.c:80): `(code,
bits_used)` per length symbol 257..285. -/
def png_length_from_spec : List (Nat × Nat) :=
  [(3,0),(4,0),(5,0),(6,0),(7,0),(8,0),(9,0),(10,0),(11,1),(13,1),(15,1),
   (17,1),(19,2),(23,2),(27,2),(31,2),(35,3),(43,3),(51,3),(59,3),(67,4),
   (83,4),(99,4),(115,4),(131,5),(163,5),(195,5),(227,5),(258,0)]

/-- Embeds the `png_dist_from_spec` table (src/png.c:112): `(code,
bits_used)` per distance symbol 0..29. -/
def png_dist_from_spec : List (Nat × Nat) :=
  [(1,0),(2,0),(3,0),(4,0),(5,1),(7,1),(9,2),(13,2),(17,3),(25,3),(33,4),
   (49,4),(65,5),(97,5),(129,6),(193,6),(257,7),(385,7),(513,8),(769,8),
   (1025,9),(1537,9),(2049,10),(3073,10),(4097,11),(6145,11),(8193,12),
   (12289,12),(16385,13),(24577,13)]

/-- Embeds `build_huffman` (src/png.c:210).  The histogram and `next_code`
are the C's 19-entry stack arrays (`List.set` is a no-op out of bounds,
where the C write would be undefined behaviour); the recurrence
`next_code[i] = next_code[i-1] + (code_len_hist[i-1] << 1)` is kept exactly
as written.  For each symbol `i` with a positive length `c`, the canonical
code is replicated over every table index whose bit-reversal extends it;
`huff->max_code_in_bits - c` is a `uint32_t` subtraction (`c` never exceeds
`max_code_in_bits` in reachable calls).  The unused `buf` parameter of the
C function is dropped. -/
def build_huffman (huff : LibImageHuffman) (code_len_bits : List Nat) :
    LibImageHuffman :=
  let hist0 := code_len_bits.foldl
    (fun h l => h.set l (h.getD l 0 + 1)) (List.replicate 19 0)
  let hist := hist0.set 0 0
  let next_code0 := (List.range 19).foldl
    (fun nc i =>
      if i = 0 then nc
      else nc.set i (nc.getD (i-1) 0 + hist.getD (i-1) 0 * 2))
    (List.replicate 19 0)
  let res := code_len_bits.enum.foldl
    (fun (st : List Nat × (Nat → Nat × Nat)) p =>
      let i := p.1
      let c := p.2
      if 0 < c then
        let code := st.1.getD c 0
        let nc := st.1.set c (code + 1)
        let shift := huff.max_code_in_bits - c
        let ent := (List.range (2 ^ shift)).foldl
          (fun e eidx =>
            let big_endian_index := code * 2 ^ shift ||| eidx
            let actual_index := bit_reverse big_endian_index huff.max_code_in_bits
            fun j => if j = actual_index then (c, i) else e j)
          st.2
        (nc, ent)
      else st)
    (next_code0, huff.entries)
  { huff with entries := res.2 }

/-- Embeds `decode_huffman` (src/png.c:246): reads (and consumes)
`max_code_in_bits` bits and returns the `code` field (the symbol) of the
entry they index. -/
def decode_huffman (huff : LibImageHuffman) (buf : LibImageZlibBuffer) :
    Nat × LibImageZlibBuffer :=
  let p := zbuf_get_n_bits buf huff.max_code_in_bits
  ((huff.entries p.1).2, p.2)

/-- Embeds the back-reference copy of `decompress_huffman_block`
(src/png.c:197-200): `source` is fixed at `uncompressed_data + un_offset -
distance` before the loop and is never advanced, so every one of the
`actual_len` single-byte writes reads the byte at that same index of the
current output buffer.  (The pointer subtraction underflows in C when
`distance > un_offset`; `Nat` subtraction truncates to index 0 there.) -/
def lz77_copy_aux (buf : LibImageZlibBuffer) (src : Nat) :
    Nat → LibImageImageInfo → LibImageImageInfo
  | 0, info => info
  | n + 1, info =>
    let b := info.uncompressed_data.getD src 0 % 256
    lz77_copy_aux buf src n (write_uncompressed_data buf info 1 (some [b]))

/-- The `while(actual_len--) write_uncompressed_data(buf, info, 1, source)`
loop of `decompress_huffman_block` (src/png.c:197-200). -/
def lz77_copy (buf : LibImageZlibBuffer) (info : LibImageImageInfo)
    (actual_len distance : Nat) : LibImageImageInfo :=
  lz77_copy_aux buf (info.un_offset - distance) actual_len info

/-- The `while(1)` symbol loop of `decompress_huffman_block`
(src/png.c:174-204), with fuel. -/
def decompress_huffman_loop (lit_huff dist_huff : LibImageHuffman) :
    Nat → LibImageZlibBuffer → LibImageImageInfo →
    LibImageZlibBuffer × LibImageImageInfo
  | 0, buf, info => (buf, info)
  | fuel + 1, buf, info =>
    let p := decode_huffman lit_huff buf
    let lit_len := p.1
    let buf := p.2
    if lit_len ≤ 255 then
      decompress_huffman_loop lit_huff dist_huff fuel buf
        (write_uncompressed_data buf info 1 (some [lit_len % 256]))
    else if 257 ≤ lit_len then
      let encoded_len := lit_len - 257
      let len_from_spec := png_length_from_spec.getD encoded_len (0, 0)
      let q := if 0 < len_from_spec.2
               then zbuf_get_n_bits buf len_from_spec.2 else (0, buf)
      let actual_len := len_from_spec.1 + (if 0 < len_from_spec.2 then q.1 else 0)
      let buf := q.2
      let r := decode_huffman dist_huff buf
      let dist_from_spec := png_dist_from_spec.getD r.1 (0, 0)
      let buf := r.2
      let s := if 0 < dist_from_spec.2
               then zbuf_get_n_bits buf dist_from_spec.2 else (0, buf)
      let distance := dist_from_spec.1 + (if 0 < dist_from_spec.2 then s.1 else 0)
      let buf := s.2
      let info := lz77_copy buf info actual_len distance
      decompress_huffman_loop lit_huff dist_huff fuel buf info
    else (buf, info)

/-- Embeds `decompress_huffman_block` (src/png.c:162): builds the
literal/length and distance tables from the code lengths the caller parked
in the sliding window (at offsets 0 and `size_lit`), then runs the symbol
loop. -/
def decompress_huffman_block (fuel : Nat) (buf : LibImageZlibBuffer)
    (info : LibImageImageInfo) (size_lit size_dist : Nat) :
    LibImageZlibBuffer × LibImageImageInfo :=
  let lit_huff := build_huffman (new_huffman 15)
    (buf.sliding_window.take size_lit)
  let dist_huff := build_huffman (new_huffman 15)
    ((buf.sliding_window.drop size_lit).take size_dist)
  decompress_huffman_loop lit_huff dist_huff fuel buf info

/-! ## DEFLATE block parsers (src/png.c) -/

/-- The `while(buf->code_buf_bits) { header[k++] = buf->code_buf & 255; … }`
loop of `png_parse_uncompressed_block` (src/png.c:363-367): pops whole bytes
out of the bit register.  After the alignment step `code_buf_bits` is a
multiple of 8, so the loop pops `code_buf_bits / 8` bytes; `& 255` is
`% 256`, `>>= 8` is `/ 256`. -/
def zbuf_pop_register_bytes (buf : LibImageZlibBuffer) :
    List Nat × LibImageZlibBuffer :=
  if buf.code_buf_bits = 0 then ([], buf)
  else
    let b := buf.code_buf % 256
    let r := zbuf_pop_register_bytes
      { buf with code_buf := buf.code_buf / 256,
                 code_buf_bits := buf.code_buf_bits - 8 }
    (b :: r.1, r.2)
termination_by buf.code_buf_bits
decreasing_by
  omega

/-- `k` further `zbuf_get_byte` fetches (the `while(k < 4)` loop of
src/png.c:372). -/
def zbuf_get_bytes : Nat → LibImageZlibBuffer → List Nat × LibImageZlibBuffer
  | 0, buf => ([], buf)
  | k + 1, buf =>
    let p := zbuf_get_byte buf
    let r := zbuf_get_bytes k p.2
    (p.1 :: r.1, r.2)

/-- The `LEN`/`NLEN` validation and copy tail of
`png_parse_uncompressed_block` (src/png.c:377-385).  `len` and `nlen` are C
`int`s; `~nlen` is the signed complement `-nlen - 1` (the code masks with
neither `& 0xffff` nor a cast). -/
def png_uncompressed_len_check (buf2 : LibImageZlibBuffer)
    (info : LibImageImageInfo) (len nlen : Nat) :
    LibImageZlibBuffer × LibImageImageInfo :=
  if (len : Int) ≠ -(nlen : Int) - 1 then
    (buf2, { info with error := LIBIMAGE_PNG_ERROR_CORRUPTED_FILE })
  else if buf2.data.length < buf2.pos + len then
    (buf2, { info with error := LIBIMAGE_PNG_ERROR_CORRUPTED_FILE })
  else
    (buf2, write_uncompressed_data buf2 info len none)

/-- Embeds `png_parse_uncompressed_block` (src/png.c:354): aligns to a byte
boundary, assembles the 4-byte `LEN`/`NLEN` header from the bit register
and then the byte stream, and validates it through
`png_uncompressed_len_check` above.  The dead `if (buf->code_buf_bits < 0)`
check on an unsigned field (src/png.c:368) is omitted. -/
def png_parse_uncompressed_block (buf : LibImageZlibBuffer)
    (info : LibImageImageInfo) : LibImageZlibBuffer × LibImageImageInfo :=
  let buf1 := if buf.code_buf_bits % 8 ≠ 0
              then (zbuf_get_n_bits buf (buf.code_buf_bits % 8)).2 else buf
  let pp := zbuf_pop_register_bytes buf1
  let gb := zbuf_get_bytes (4 - pp.1.length) pp.2
  let header := (pp.1 ++ gb.1).take 4
  png_uncompressed_len_check gb.2 info
    (header.getD 1 0 * 256 + header.getD 0 0)
    (header.getD 3 0 * 256 + header.getD 2 0)

/-- Embeds `png_parse_huffman_fixed_block` (src/png.c:388): for each group
of the `lit_bit_count` table, appends the group's bit count once per symbol
index up to and including the group bound.  Each append passes
`sizeof(bit_count) = 4` bytes of the little-endian `int`, i.e. the bytes
`[bit_count, 0, 0, 0]`; the return value of the append is ignored, as in
the C. -/
def png_parse_huffman_fixed_block (fuel : Nat) (buf : LibImageZlibBuffer)
    (info : LibImageImageInfo) : LibImageZlibBuffer × LibImageImageInfo :=
  let lit_bit_count : List (Nat × Nat) :=
    [(143,8),(255,9),(279,7),(287,8),(319,5)]
  let st := lit_bit_count.foldl
    (fun (st : Nat × LibImageZlibBuffer) g =>
      let bit_index := st.1
      let cnt := g.1 + 1 - bit_index
      let buf := (List.range cnt).foldl
        (fun b _ => (zbuf_append_to_sliding_window b [g.2, 0, 0, 0]).2) st.2
      (bit_index + cnt, buf))
    (0, buf)
  decompress_huffman_block fuel st.2 info 288 32

/-- The `while(n < total)` code-length decoding loop of
`png_parse_huffman_dynamic_block` (src/png.c:434-462), with fuel.  `run_val`
threads the C's (initially uninitialised, modelled 0) local across
iterations; `run_len` is computed — consuming its extra bits — but the
repetition count of the final `while(encoded_len--)` is `encoded_len`
itself, exactly as in the C.  Each append stores the 4 little-endian bytes
of the `int run_val`. -/
def png_dynamic_lens_loop (huff : LibImageHuffman) (total : Nat) :
    Nat → Nat → Nat → LibImageZlibBuffer → LibImageZlibBuffer × Option Nat
  | 0, _, _, buf => (buf, none)
  | fuel + 1, n, run_val, buf =>
    if total ≤ n then (buf, none)
    else
      let p := decode_huffman huff buf
      let encoded_len := p.1
      let buf := p.2
      if 19 ≤ encoded_len then
        (buf, some LIBIMAGE_PNG_HUFFMAN_BAD_CODE_LENGTHS)
      else
        let step :
            Nat × LibImageZlibBuffer :=
          if encoded_len ≤ 15 then (encoded_len, buf)
          else if encoded_len = 16 then
            let q := zbuf_get_n_bits buf 2
            let _run_len := q.1 + 3
            (q.2.sliding_window.getD (n - 1) 0 % 256, q.2)
          else if encoded_len = 17 then
            let q := zbuf_get_n_bits buf 3
            let _run_len := q.1 + 3
            (run_val, q.2)
          else
            let q := zbuf_get_n_bits buf 7
            let _run_len := q.1 + 11
            (run_val, q.2)
        let run_val := step.1
        let buf := (List.range encoded_len).foldl
          (fun b _ => (zbuf_append_to_sliding_window b [run_val, 0, 0, 0]).2)
          step.2
        png_dynamic_lens_loop huff total fuel (n + encoded_len) run_val buf

/-- Embeds `png_parse_huffman_dynamic_block` (src/png.c:408): reads
HLIT/HDIST/HCLEN, fills the code-length-alphabet lengths (the 19-byte stack
array is uninitialised in C; unwritten slots are modelled 0), builds the
7-bit table, decodes `hlit + hdist` code lengths into the sliding window
and decompresses with them. -/
def png_parse_huffman_dynamic_block (fuel lens_fuel : Nat)
    (buf : LibImageZlibBuffer) (info : LibImageImageInfo) :
    LibImageZlibBuffer × LibImageImageInfo :=
  let code_len_alphabet : List Nat :=
    [16,17,18,0,8,7,9,6,10,5,11,4,12,3,13,2,14,1,15]
  let p1 := zbuf_get_n_bits buf 5
  let hlit := p1.1 + 257
  let p2 := zbuf_get_n_bits p1.2 5
  let hdist := p2.1 + 1
  let p3 := zbuf_get_n_bits p2.2 4
  let hclen := p3.1 + 4
  let total := hlit + hdist
  let st := (List.range hclen).foldl
    (fun (st : List Nat × LibImageZlibBuffer) n =>
      let q := zbuf_get_n_bits st.2 3
      (st.1.set (code_len_alphabet.getD n 0) q.1, q.2))
    (List.replicate 19 0, p3.2)
  let huff := build_huffman (new_huffman 7) st.1
  let lp := png_dynamic_lens_loop huff total lens_fuel 0 0 st.2
  match lp.2 with
  | some e => (lp.1, { info with error := e })
  | none => decompress_huffman_block fuel lp.1 info hlit hdist

/-- The `do { … } while(!end)` block loop of `handle_png_data`
(src/png.c:483-499), with fuel: reads BFINAL and BTYPE, dispatches on the
block type — BTYPE 3 just `continue`s to the loop condition — and stops on
an error or after the final block. -/
def handle_png_loop (bfuel lens_fuel : Nat) :
    Nat → LibImageZlibBuffer → LibImageImageInfo →
    LibImageZlibBuffer × LibImageImageInfo
  | 0, buf, info => (buf, info)
  | fuel + 1, buf, info =>
    let p := zbuf_get_n_bits buf 1
    let e := p.1
    let q := zbuf_get_n_bits p.2 2
    let t := q.1
    let buf := q.2
    if t = 3 then
      if e ≠ 0 then (buf, info) else handle_png_loop bfuel lens_fuel fuel buf info
    else
      let r := if t = 0 then png_parse_uncompressed_block buf info
               else if t = 1 then png_parse_huffman_fixed_block bfuel buf info
               else png_parse_huffman_dynamic_block bfuel lens_fuel buf info
      let buf := r.1
      let info := r.2
      if info.error ≠ 0 then (buf, info)
      else if e ≠ 0 then (buf, info)
      else handle_png_loop bfuel lens_fuel fuel buf info

/-- Embeds `handle_png_data` (src/png.c:468): sets up a zlib buffer over
the concatenated IDAT bytes, parses the zlib header (propagating its
error), runs the block loop and frees the window. -/
def handle_png_data (fuel bfuel lens_fuel : Nat)
    (info : LibImageImageInfo) : LibImageImageInfo :=
  let zlib_buf := zbuf_init info.compressed_data info.cd_offset true
  let zlib_buf := zbuf_parse_header zlib_buf
  if zlib_buf.error ≠ 0 then { info with error := zlib_buf.error }
  else
    let r := handle_png_loop bfuel lens_fuel fuel zlib_buf info
    let _ := zbuf_deinit r.1
    r.2

/-! ## Data reader and PNG chunk machinery (src/common.h, src/png.c) -/

/-- Embeds `struct libimage_data_reader` (src/common.h).  The unused
`peek_cursor` field is omitted. -/
structure LibImageDataReader where
  data : List Nat := []
  type : Nat := 0
  error : Nat := 0
  cursor : Nat := 0

/-- Embeds `consume_bytes` (src/common.c:11). -/
def consume_bytes (r : LibImageDataReader) (n : Nat) : LibImageDataReader :=
  { r with cursor := r.cursor + n }

/-- The canonical PNG signature bytes `png_file_sig` (src/png.c:79,
src/libimage.c:120). -/
def png_file_sig : List Nat := [0x89, 0x50, 0x4e, 0x47, 0x0d, 0x0a, 0x1a, 0x0a]

/-- Embeds `check_png_signature` (src/png.c:265, identically
src/libimage.c:312): loads the stored and the expected signature as
`uint64_t`s, but compares `sig_to_check` with itself, so it never fails;
it consumes `sizeof(correct_sig) = 8` bytes and returns 0. -/
def check_png_signature (r : LibImageDataReader) : Int × LibImageDataReader :=
  let _correct_sig := loadLE64 png_file_sig 0
  let sig_to_check := loadLE64 r.data 0
  if sig_to_check ≠ sig_to_check then (-1, r)
  else (0, consume_bytes r 8)

/-- Embeds `check_data_header` (src/libimage.c:324): marks the reader as a
PNG reader when the signature check succeeds, otherwise reports
`LIBIMAGE_ERROR_TYPE_NOT_SUPPORTED`. -/
def check_data_header (r : LibImageDataReader) : Int × LibImageDataReader :=
  let p := check_png_signature r
  if p.1 = 0 then (0, { p.2 with type := LIBIMAGE_TYPE_PNG })
  else (-1, { p.2 with error := LIBIMAGE_ERROR_TYPE_NOT_SUPPORTED })

/-- Embeds `struct libimage_png_chunk` (src/png.h).  `start` is the index
of `start_chunk_data` in the input; `end_chunk_data` (which the C sets to
`start + data_len - 1`) is recomputed where used. -/
structure LibImagePngChunk where
  data_len : Nat
  type : Nat
  start : Nat
  crc : Nat

/-- Embeds `read_png_chunk` (src/png.c:307): big-endian length and type
(little-endian load then `u32_endian_swap`), payload bounds, then the
trailing CRC word — which src/png.c:319 loads without a byte swap. -/
def read_png_chunk (r : LibImageDataReader) :
    LibImagePngChunk × LibImageDataReader :=
  let data_len := u32_endian_swap (loadLE32 r.data r.cursor)
  let ctype := u32_endian_swap (loadLE32 r.data (r.cursor + 4))
  let r := consume_bytes r 8
  let start := r.cursor
  let r := consume_bytes r data_len
  let crc := loadLE32 r.data r.cursor
  ({ data_len := data_len, type := ctype, start := start, crc := crc },
   consume_bytes r 4)

/-- Embeds `struct libimage_png_ihdr` (src/png.h). -/
structure LibImagePngIHdr where
  width : Nat
  height : Nat
  bit_depth : Nat
  colour_type : Nat
  compression_method : Nat
  filter_method : Nat
  interlace_method : Nat

/-- Embeds `validate_ihdr` (src/png.c:277).  The comparisons are kept as
written: `colour_type < 0 && colour_type > 6` and `interlace_method < 0 &&
…` are unsatisfiable on the unsigned fields, `bit_depth > 16 && bit_depth <
1` likewise; `IS_POWER_OF_TWO(num)` is the macro `num & (num - 1)`
(src/common.h:14), so `IS_POWER_OF_TWO(d) == 0` holds exactly when `d` is 0
or a power of two.  (The `h == NULL` early-out cannot occur at the call
site and is omitted.)  Returns the C return value and the updated info. -/
def validate_ihdr (h : LibImagePngIHdr) (info : LibImageImageInfo) :
    Nat × LibImageImageInfo :=
  if h.colour_type < 0 ∧ 6 < h.colour_type then
    (LIBIMAGE_PNG_ERROR_IHDR_COLOUR_TYPE, info)
  else if h.colour_type = 1 ∨ h.colour_type = 5 then
    (LIBIMAGE_PNG_ERROR_IHDR_COLOUR_TYPE, info)
  else if 16 < h.bit_depth ∧ h.bit_depth < 1 then
    (LIBIMAGE_PNG_ERROR_IHDR_BIT_DEPTH, info)
  else if h.bit_depth ≠ 1 ∧ h.bit_depth % 2 ≠ 0 then
    (LIBIMAGE_PNG_ERROR_IHDR_BIT_DEPTH, info)
  else if h.interlace_method < 0 ∧ 1 < h.interlace_method then
    (LIBIMAGE_PNG_ERROR_IHDR_INTERLACE, info)
  else if h.colour_type = 0 ∧ h.bit_depth ≠ 1 ∧
      h.bit_depth &&& (h.bit_depth - 1) = 0 then
    (LIBIMAGE_PNG_ERROR_IHDR_BIT_DEPTH_COMBINATION, info)
  else if (h.colour_type = 6 ∨ h.colour_type = 4 ∨ h.colour_type = 2) ∧
      h.bit_depth ≠ 8 ∧ h.bit_depth ≠ 16 then
    (LIBIMAGE_PNG_ERROR_IHDR_BIT_DEPTH_COMBINATION, info)
  else if h.colour_type = 3 ∧ h.bit_depth ≠ 1 ∧ 8 < h.bit_depth ∧
      h.bit_depth &&& (h.bit_depth - 1) = 0 then
    (LIBIMAGE_PNG_ERROR_IHDR_BIT_DEPTH_COMBINATION, info)
  else
    (0, { info with color_type := h.colour_type })

/-- Embeds `process_ihdr_chunk` (src/png.c:325): loads the packed 13-byte
IHDR payload (two big-endian words arrive as little-endian loads swapped
below, five single bytes), validates it, byte-swaps width and height and
range-checks them.  The `compression_method` line assigns to the local
pointer variable, not through it, and has no effect; `print_ihdr` only
prints. -/
def process_ihdr_chunk (c : LibImagePngChunk) (r : LibImageDataReader)
    (info : LibImageImageInfo) : LibImageDataReader × LibImageImageInfo :=
  let ihdr : LibImagePngIHdr :=
    { width := loadLE32 r.data c.start,
      height := loadLE32 r.data (c.start + 4),
      bit_depth := byteAt r.data (c.start + 8),
      colour_type := byteAt r.data (c.start + 9),
      compression_method := byteAt r.data (c.start + 10),
      filter_method := byteAt r.data (c.start + 11),
      interlace_method := byteAt r.data (c.start + 12) }
  let v := validate_ihdr ihdr info
  if v.1 ≠ 0 then ({ r with error := v.1 }, v.2)
  else
    let info := { v.2 with width := u32_endian_swap ihdr.width,
                           height := u32_endian_swap ihdr.height }
    if LIBIMAGE_PNG_MAX_IMAGE_SIZE < info.width ∨
        LIBIMAGE_PNG_MAX_IMAGE_SIZE < info.height then
      ({ r with error := LIBIMAGE_PNG_ERROR_BIG_IMAGE }, info)
    else if info.width = 0 ∨ info.height = 0 then
      ({ r with error := LIBIMAGE_PNG_ERROR_ZERO_SIZE }, info)
    else (r, info)

/-- The `uint8_t` flags and the `size_data` bookkeeping local of the chunk
loop of `libimage_process_png` (src/png.c:506-512). -/
structure PngLoopState where
  first_chunk : Bool := true
  got_idat_chunk : Bool := false
  got_plte_chunk : Bool := false
  got_gama_chunk : Bool := false
  size_data : Nat := 0

/-- Outcome of one chunk-loop iteration: `halt` when the C `return`s or
`goto bail`s out of the loop, `next` to keep iterating. -/
inductive PngStep where
  | halt : LibImageDataReader → LibImageImageInfo → PngStep
  | next : LibImageDataReader → LibImageImageInfo → PngLoopState → PngStep

/-- The `while(size_data < needed) size_data *= 2` growth of the IDAT
branch (src/png.c:577).  (A zero base cannot occur: the caller seeds it with
at least `IDAT_DEFAULT_BLOCK_SIZE`.) -/
def grow_size (base need : Nat) : Nat :=
  if base = 0 then base
  else if base < need then grow_size (base * 2) need else base
termination_by need - base
decreasing_by
  omega

/-- Embeds the `switch(chunk.type.i)` body of the chunk loop of
`libimage_process_png` (src/png.c:523-616).  The IDAT branch appends
`end_chunk_data - start_chunk_data = data_len - 1` payload bytes
(src/png.c:587) and then advances `cd_offset` by the full `data_len`,
leaving one uninitialised byte (modelled 0) per chunk in the buffer; the
`realloc` bookkeeping is tracked in `size_data` and always succeeds.  The
IEND branch runs `handle_png_data` and propagates its error. -/
def process_png_chunk (hfuel bfuel lens_fuel : Nat) (chunk : LibImagePngChunk)
    (r : LibImageDataReader) (info : LibImageImageInfo) (st : PngLoopState) :
    PngStep :=
  if chunk.type = 0x49484452 then -- IHDR
    if st.first_chunk = false then
      .halt { r with error := LIBIMAGE_PNG_ERROR_MULTIPLE_IHDR } info
    else if chunk.data_len ≠ 13 then
      .halt { r with error := LIBIMAGE_PNG_ERROR_CORRUPT_IHDR } info
    else
      let p := process_ihdr_chunk chunk r info
      if p.1.error ≠ 0 then .halt p.1 p.2
      else .next p.1 p.2 { st with first_chunk := false }
  else if chunk.type = 0x67414D41 then -- gAMA
    if st.first_chunk then
      .halt { r with error := LIBIMAGE_PNG_ERROR_IHDR_NOT_FOUND } info
    else if st.got_plte_chunk then
      .halt { r with error := LIBIMAGE_PNG_ERROR_GAMA_AFTER_PLTE } info
    else if st.got_gama_chunk then
      .halt { r with error := LIBIMAGE_PNG_ERROR_MULTIPLE_GAMA } info
    else
      .next r { info with gamma := u32_endian_swap (loadLE32 r.data chunk.start) }
        { st with got_gama_chunk := true }
  else if chunk.type = 0x504C5445 then -- PLTE
    if st.first_chunk then
      .halt { r with error := LIBIMAGE_PNG_ERROR_IHDR_NOT_FOUND } info
    else if info.color_type = 0 ∨ info.color_type = 4 then
      .halt { r with error := LIBIMAGE_PNG_ERROR_UNEXPECTED_PLTE } info
    else .next r info { st with got_plte_chunk := true }
  else if chunk.type = 0x49444154 then -- IDAT
    if st.first_chunk then
      .halt { r with error := LIBIMAGE_PNG_ERROR_IHDR_NOT_FOUND } info
    else
      let st := { st with got_idat_chunk := true }
      if 1073741824 < chunk.data_len then
        .halt { r with error := LIBIMAGE_PNG_ERROR_IDAT_SIZE_LIMIT } info
      else
        let size_data :=
          if st.size_data < info.cd_offset + chunk.data_len then
            let base := if st.size_data = 0 then
                (if 4096 < chunk.data_len then chunk.data_len else 4096)
              else st.size_data
            grow_size base (info.cd_offset + chunk.data_len)
          else st.size_data
        let payload := (List.range chunk.data_len).map
          (fun i => byteAt r.data (chunk.start + i))
        let info := { info with
          compressed_data := info.compressed_data ++
            payload.take (chunk.data_len - 1) ++
            List.replicate (chunk.data_len - (chunk.data_len - 1)) 0,
          cd_offset := info.cd_offset + chunk.data_len }
        .next r info { st with size_data := size_data }
  else if chunk.type = 0x49454E44 then -- IEND
    if st.first_chunk then
      .halt { r with error := LIBIMAGE_PNG_ERROR_IHDR_NOT_FOUND } info
    else if st.got_idat_chunk = false then
      .halt { r with error := LIBIMAGE_PNG_ERROR_NO_IDAT } info
    else if info.color_type = 3 ∧ st.got_plte_chunk = false then
      .halt { r with error := LIBIMAGE_PNG_ERROR_NO_PLTE } info
    else
      let info := handle_png_data hfuel bfuel lens_fuel info
      if info.error ≠ 0 then .halt { r with error := info.error } info
      else .halt r info
  else -- unknown type: error and `goto bail`
    .halt { r with error := LIBIMAGE_PNG_ERROR_INVALID_FILE } info

/-- The chunk loop of `libimage_process_png` (src/png.c:513), with fuel in
place of the `MAXIMUM_LOOP_ALLOWED` iteration cap. -/
def libimage_png_loop (hfuel bfuel lens_fuel : Nat) :
    Nat → PngLoopState → LibImageDataReader → LibImageImageInfo →
    LibImageDataReader × LibImageImageInfo
  | 0, _, r, info => (r, info)
  | fuel + 1, st, r, info =>
    let p := read_png_chunk r
    match process_png_chunk hfuel bfuel lens_fuel p.1 p.2 info st with
    | .halt r' info' => (r', info')
    | .next r' info' st' => libimage_png_loop hfuel bfuel lens_fuel fuel st' r' info'

/-- Embeds `libimage_process_png` (src/png.c:503). -/
def libimage_process_png (cfuel hfuel bfuel lens_fuel : Nat)
    (r : LibImageDataReader) (info : LibImageImageInfo) :
    LibImageDataReader × LibImageImageInfo :=
  libimage_png_loop hfuel bfuel lens_fuel cfuel {} r info

/-- Result of `libimage_process_data` (src/libimage.c:569): the
width/height/error out-parameters and the returned buffer. -/
structure LibImageResult where
  width : Nat
  height : Nat
  error : Nat
  data : List Nat

/-- Embeds `libimage_process_data` (src/libimage.c:569), driving the PNG
pipeline of src/png.c: initialise the reader, check the header, process the
PNG; on error free the image buffer and report the code, otherwise hand the
decompressed buffer and the dimensions to the caller. -/
def libimage_process_data (cfuel hfuel bfuel lens_fuel : Nat)
    (data : List Nat) : LibImageResult :=
  let reader : LibImageDataReader := { data := data }
  let c := check_data_header reader
  if c.1 ≠ 0 then { width := 0, height := 0, error := c.2.error, data := [] }
  else
    let reader := c.2
    if reader.type = LIBIMAGE_TYPE_PNG then
      let p := libimage_process_png cfuel hfuel bfuel lens_fuel reader {}
      if p.1.error ≠ 0 then
        { width := 0, height := 0, error := p.1.error, data := [] }
      else
        { width := p.2.width, height := p.2.height, error := 0,
          data := p.2.uncompressed_data }
    else { width := 0, height := 0, error := 0, data := [] }

/-! ## Specification-side definitions

These definitions follow the words of the specification (not the source);
they exist to be compared against the source embeddings above. -/

/-- The (color_type, bit_depth) table of spec §3: the pairs IHDR validation
is specified to accept. -/
def spec_bit_depth_table (color_type bit_depth : Nat) : Bool :=
  (color_type = 0 ∧ (bit_depth = 1 ∨ bit_depth = 2 ∨ bit_depth = 4 ∨
      bit_depth = 8 ∨ bit_depth = 16)) ∨
  (color_type = 2 ∧ (bit_depth = 8 ∨ bit_depth = 16)) ∨
  (color_type = 3 ∧ (bit_depth = 1 ∨ bit_depth = 2 ∨ bit_depth = 4 ∨
      bit_depth = 8)) ∨
  (color_type = 4 ∧ (bit_depth = 8 ∨ bit_depth = 16)) ∨
  (color_type = 6 ∧ (bit_depth = 8 ∨ bit_depth = 16))

/-- The specified back-reference copy (spec §4.5 / claim C7): for each
`i < length`, the byte appended at position `end + i` is the byte currently
at position `end − distance + i`, where `end` is the output length before
the copy — so overlapping copies re-read bytes written earlier in the same
copy. -/
def lz77_spec_copy (out : List Nat) (length distance : Nat) : List Nat :=
  (List.range length).foldl
    (fun acc i => acc ++ [acc.getD (out.length - distance + i) 0]) out

/-- The minimal 1×1 greyscale PNG of claim C1 / spec §8 scenario 6:
signature, IHDR(1,1,8,0,0,0,0), an IDAT whose payload is the zlib stream
`78 01` + stored block `01 02 00 FD FF 00 00` + Adler-32 `00 02 00 01`
(which inflates to the two bytes `00 00`), and IEND; all chunk CRCs are the
correct CRC-32 values. -/
def png_minimal_1x1 : List Nat :=
  [137, 80, 78, 71, 13, 10, 26, 10,
   0, 0, 0, 13, 73, 72, 68, 82, 0, 0, 0, 1, 0, 0, 0, 1, 8, 0, 0, 0, 0,
   58, 126, 155, 85,
   0, 0, 0, 13, 73, 68, 65, 84, 120, 1, 1, 2, 0, 253, 255, 0, 0, 0, 2, 0, 1,
   126, 5, 13, 210,
   0, 0, 0, 0, 73, 69, 78, 68, 174, 66, 96, 130]

/-- An input whose first byte is `0x88` instead of the canonical `0x89`
(claim C5 / spec §8 scenario 2). -/
def bad_signature_input : List Nat :=
  [0x88, 0x50, 0x4e, 0x47, 0x0d, 0x0a, 0x1a, 0x0a]

/-- The behaviour claim C10 states for one sliding-window append: on
overflow the call returns −1 and changes nothing; otherwise it returns 0,
advances the offset by the number of bytes, keeps the offset within the
limit, and copies exactly those bytes at the old offset, leaving every
other window byte unchanged. -/
def zbuf_append_spec (buf : LibImageZlibBuffer) (value : List Nat) : Prop :=
  (buf.sliding_window_limit < value.length + buf.sliding_window_off →
    zbuf_append_to_sliding_window buf value = (-1, buf)) ∧
  (value.length + buf.sliding_window_off ≤ buf.sliding_window_limit →
    (zbuf_append_to_sliding_window buf value).1 = 0 ∧
    (zbuf_append_to_sliding_window buf value).2.sliding_window_off =
      buf.sliding_window_off + value.length ∧
    (zbuf_append_to_sliding_window buf value).2.sliding_window_off ≤
      (zbuf_append_to_sliding_window buf value).2.sliding_window_limit ∧
    (zbuf_append_to_sliding_window buf value).2.sliding_window.length =
      buf.sliding_window.length ∧
    (∀ i, i < value.length →
      (zbuf_append_to_sliding_window buf value).2.sliding_window.getD
        (buf.sliding_window_off + i) 0 = value.getD i 0) ∧
    (∀ i, i < buf.sliding_window_off →
      (zbuf_append_to_sliding_window buf value).2.sliding_window.getD i 0 =
        buf.sliding_window.getD i 0) ∧
    (∀ i, buf.sliding_window_off + value.length ≤ i →
      (zbuf_append_to_sliding_window buf value).2.sliding_window.getD i 0 =
        buf.sliding_window.getD i 0))

/-- The behaviour claim C9 states for a gAMA chunk that arrives after IHDR
(`first_chunk` already cleared): after PLTE it fails `GammaAfterPLTE`, a
second gAMA fails `MultipleGAMA`, and an accepted gAMA stores the 4-byte
payload read as a big-endian u32 in `gamma` and marks the chunk seen. -/
def gama_chunk_spec (hfuel bfuel lens_fuel : Nat) (chunk : LibImagePngChunk)
    (r : LibImageDataReader) (info : LibImageImageInfo) (st : PngLoopState) :
    Prop :=
  (st.got_plte_chunk = true →
    process_png_chunk hfuel bfuel lens_fuel chunk r info st =
      .halt { r with error := LIBIMAGE_PNG_ERROR_GAMA_AFTER_PLTE } info) ∧
  (st.got_plte_chunk = false → st.got_gama_chunk = true →
    process_png_chunk hfuel bfuel lens_fuel chunk r info st =
      .halt { r with error := LIBIMAGE_PNG_ERROR_MULTIPLE_GAMA } info) ∧
  (st.got_plte_chunk = false → st.got_gama_chunk = false →
    process_png_chunk hfuel bfuel lens_fuel chunk r info st =
      .next r
        { info with gamma := (byteAt r.data (chunk.start + 3) +
            256 * byteAt r.data (chunk.start + 2) +
            65536 * byteAt r.data (chunk.start + 1) +
            16777216 * byteAt r.data chunk.start) }
        { st with got_gama_chunk := true })

/-! ## Helper lemmas -/

/-- Byte-swapping a little-endian 32-bit load reads the four bytes
big-endian. -/
theorem u32_endian_swap_loadLE32 (data : List Nat) (i : Nat) :
    u32_endian_swap (loadLE32 data i) =
      byteAt data (i+3) + 256 * byteAt data (i+2) + 65536 * byteAt data (i+1) +
        16777216 * byteAt data i := by
  unfold u32_endian_swap loadLE32 byteAt
  omega

/-- `png_uncompressed_len_check` always reports `CorruptedStream`: `len`
and `nlen` are non-negative `int`s, so `len == ~nlen`, i.e.
`len = -nlen - 1`, is unsatisfiable. -/
theorem png_uncompressed_len_check_error (buf2 : LibImageZlibBuffer)
    (info : LibImageImageInfo) (len nlen : Nat) :
    (png_uncompressed_len_check buf2 info len nlen).2.error =
      LIBIMAGE_PNG_ERROR_CORRUPTED_FILE := by
  unfold png_uncompressed_len_check
  split
  · rfl
  · rename_i h
    exfalso
    push_neg at h
    omega

/-- When a zlib stream of at least two bytes starts with a CMF/FLG pair
failing the `% 31` check, `zbuf_parse_header` reports
`ZlibHeaderCorrupted`. -/
theorem zbuf_parse_header_bad_checksum (b : LibImageZlibBuffer)
    (hpos : b.pos = 0) (hlen : 2 ≤ b.data.length)
    (hmod : (byteAt b.data 0 * 256 + byteAt b.data 1) % 31 ≠ 0) :
    (zbuf_parse_header b).error = LIBIMAGE_ERROR_ZLIB_HEADER_CORRUPTED := by
  obtain ⟨data, pos, sw, swo, swl, cb, cbb, err, aw⟩ := b
  simp only at hpos hlen hmod
  subst hpos
  unfold zbuf_parse_header zbuf_get_byte zbuf_is_eof
  simp only [decide_eq_true_eq]
  split_ifs with h1 h2 h3 <;> simp_all

/-! ## Claim theorems -/

/-- C1: the spec says decoding the minimal 1×1 greyscale PNG (IHDR
width = 1, height = 1, bit_depth = 8, color_type = 0, one stored-block
IDAT inflating to `00 00`, IEND) succeeds with width 1, height 1 and the
two-byte buffer `00 00`.  The code instead rejects it while validating the
IHDR: the inverted `IS_POWER_OF_TWO` macro makes greyscale reject every
power-of-two bit depth, so decoding stops with
`LIBIMAGE_PNG_ERROR_IHDR_BIT_DEPTH_COMBINATION` and returns no data. -/
theorem C1_minimal_png_rejected_with_bit_depth_combo :
    (libimage_process_data 4 4 4 4 png_minimal_1x1).error =
      LIBIMAGE_PNG_ERROR_IHDR_BIT_DEPTH_COMBINATION ∧
    (libimage_process_data 4 4 4 4 png_minimal_1x1).data = [] := by
  constructor <;> decide

/-- C2: the spec says a Huffman decode step consumes exactly the decoded
symbol's code length.  In the code `decode_huffman` consumes
`max_code_in_bits` bits unconditionally: for the complete code-length
assignment `[1, 1]` on a 2-bit table, feeding symbol 0's canonical code
(a single 0 bit, buffer `02 00 00 00` read LSB-first) decodes symbol 0 but
consumes 2 bits (4 bytes pulled into the register minus 30 bits left),
not the code length 1. -/
theorem C2_decode_huffman_consumes_max_bits :
    (decode_huffman (build_huffman (new_huffman 2) [1, 1])
        { data := [2, 0, 0, 0] }).1 = 0 ∧
    8 * (decode_huffman (build_huffman (new_huffman 2) [1, 1])
        { data := [2, 0, 0, 0] }).2.pos -
      (decode_huffman (build_huffman (new_huffman 2) [1, 1])
        { data := [2, 0, 0, 0] }).2.code_buf_bits = 2 ∧
    [1, 1].getD 0 0 = 1 := by
  refine ⟨?_, ?_, ?_⟩ <;> decide

/-- C4: the spec says IHDR validation accepts a (color_type, bit_depth)
pair exactly when it is in the §3 table.  The code disagrees in both
directions: the in-table pair (0, 8) is rejected with
`LIBIMAGE_PNG_ERROR_IHDR_BIT_DEPTH_COMBINATION` (the `IS_POWER_OF_TWO`
macro is inverted) while the out-of-table pair (0, 6) is accepted. -/
theorem C4_bit_depth_table_mismatch :
    (validate_ihdr ⟨1, 1, 8, 0, 0, 0, 0⟩ {}).1 =
      LIBIMAGE_PNG_ERROR_IHDR_BIT_DEPTH_COMBINATION ∧
    spec_bit_depth_table 0 8 = true ∧
    (validate_ihdr ⟨1, 1, 6, 0, 0, 0, 0⟩ {}).1 = 0 ∧
    spec_bit_depth_table 0 6 = false := by
  refine ⟨?_, ?_, ?_, ?_⟩ <;> decide

/-- C5: the spec says an input whose first 8 bytes differ from the PNG
signature fails with the bad-signature error.  The code's
`check_png_signature` compares `sig_to_check` with itself, so the check
never fails: on an input starting with `0x88` the header check still
returns 0, sets no error and classifies the data as PNG. -/
theorem C5_signature_check_accepts_bad_signature :
    (check_data_header { data := bad_signature_input }).1 = 0 ∧
    (check_data_header { data := bad_signature_input }).2.error = 0 ∧
    (check_data_header { data := bad_signature_input }).2.type =
      LIBIMAGE_TYPE_PNG ∧
    bad_signature_input.getD 0 0 ≠ png_file_sig.getD 0 0 := by
  refine ⟨?_, ?_, ?_, ?_⟩ <;> decide

/-- C6: the spec says a DEFLATE block header with BTYPE = 3 fails with
`CorruptedStream`.  The code merely logs and `continue`s: on the zlib
stream `78 01 07` (valid header, then BFINAL = 1, BTYPE = 3) the block loop
exits normally and `handle_png_data` reports no error at all. -/
theorem C6_btype3_sets_no_error :
    (handle_png_data 4 4 4
        { compressed_data := [0x78, 0x01, 0x07], cd_offset := 3 }).error = 0 := by
  decide

/-- C7: the spec says a decoded (length, distance) pair appends `length`
bytes with `out[end + i] = out[end − distance + i]`.  The code computes
`source = uncompressed_data + un_offset − distance` once and never
advances it, so every appended byte equals `out[end − distance]`: on prior
output `[0, 1]` with length 2, distance 2 the code produces `[0, 1, 0, 0]`
where the specified copy produces `[0, 1, 0, 1]`. -/
theorem C7_lz77_copy_does_not_advance_source :
    (lz77_copy {} { uncompressed_data := [0, 1], un_offset := 2 } 2 2
      ).uncompressed_data = [0, 1, 0, 0] ∧
    lz77_spec_copy [0, 1] 2 2 = [0, 1, 0, 1] := by
  constructor <;> decide

/-- C3: the spec says a stored block round-trips its payload, failing
`CorruptedStream` precisely when `LEN ≠ ~NLEN & 0xffff` or `LEN` overruns
the input.  The code compares the `int`s `len != ~nlen` without the 16-bit
mask; since `len ≥ 0 > -nlen - 1` this always holds, so
`png_parse_uncompressed_block` reports `CorruptedStream` on every input —
no stored block ever round-trips. -/
theorem C3_stored_block_always_corrupted (buf : LibImageZlibBuffer)
    (info : LibImageImageInfo) :
    (png_parse_uncompressed_block buf info).2.error =
      LIBIMAGE_PNG_ERROR_CORRUPTED_FILE := by
  unfold png_parse_uncompressed_block
  exact png_uncompressed_len_check_error _ _ _ _

/-- C8: for every concatenated IDAT stream of at least two bytes whose
CMF/FLG pair fails `(CMF*256 + FLG) % 31 = 0`, `handle_png_data` (the
decode of that stream) reports `ZlibHeaderCorrupted`, as the spec says. -/
theorem C8_bad_zlib_header_rejected (fuel bfuel lens_fuel : Nat)
    (info : LibImageImageInfo)
    (hlen : 2 ≤ (info.compressed_data.take info.cd_offset).length)
    (hmod : (byteAt (info.compressed_data.take info.cd_offset) 0 * 256 +
        byteAt (info.compressed_data.take info.cd_offset) 1) % 31 ≠ 0) :
    (handle_png_data fuel bfuel lens_fuel info).error =
      LIBIMAGE_ERROR_ZLIB_HEADER_CORRUPTED := by
  have hd : (zbuf_init info.compressed_data info.cd_offset true).data =
      info.compressed_data.take info.cd_offset := by
    simp [zbuf_init]
  have h0 : (zbuf_init info.compressed_data info.cd_offset true).pos = 0 := by
    simp [zbuf_init]
  have h25 := zbuf_parse_header_bad_checksum _ h0 (by rw [hd]; exact hlen)
    (by rw [hd]; exact hmod)
  simp only [handle_png_data]
  rw [h25, if_pos (show LIBIMAGE_ERROR_ZLIB_HEADER_CORRUPTED ≠ 0 by decide)]

/-- Witness for C8 at the concrete stream `78 02`
(`0x78 * 256 + 2 = 30722`, `30722 % 31 = 1`). -/
theorem C8_bad_zlib_header_rejected_witness :
    (handle_png_data 4 4 4
        { compressed_data := [0x78, 0x02], cd_offset := 2 }).error =
      LIBIMAGE_ERROR_ZLIB_HEADER_CORRUPTED :=
  C8_bad_zlib_header_rejected 4 4 4
    { compressed_data := [0x78, 0x02], cd_offset := 2 }
    (by decide) (by decide)

/-- C9: in the chunk loop after IHDR (the `first_chunk` flag cleared), a
gAMA chunk after PLTE fails `GammaAfterPLTE`, a second gAMA fails
`MultipleGAMA`, and an accepted gAMA stores its 4-byte payload as a
big-endian u32 in `gamma`, as the spec says. -/
theorem C9_gama_chunk_sequencing (hfuel bfuel lens_fuel : Nat)
    (chunk : LibImagePngChunk) (r : LibImageDataReader)
    (info : LibImageImageInfo) (st : PngLoopState)
    (htype : chunk.type = 0x67414D41) (hfc : st.first_chunk = false) :
    gama_chunk_spec hfuel bfuel lens_fuel chunk r info st := by
  unfold gama_chunk_spec
  refine ⟨fun hp => ?_, fun hp hg => ?_, fun hp hg => ?_⟩ <;>
    simp only [process_png_chunk, htype, hfc, hp, u32_endian_swap_loadLE32] <;>
    simp_all

/-- Witness for C9 at a concrete gAMA chunk (payload `00 01 86 A0`,
gamma 100000) in a post-IHDR state. -/
theorem C9_gama_chunk_sequencing_witness :
    gama_chunk_spec 1 1 1 { data_len := 4, type := 0x67414D41, start := 8, crc := 0 }
      { data := [0, 0, 0, 4, 0x67, 0x41, 0x4D, 0x41, 0, 1, 134, 160] } {}
      { first_chunk := false } :=
  C9_gama_chunk_sequencing 1 1 1
    { data_len := 4, type := 0x67414D41, start := 8, crc := 0 }
    { data := [0, 0, 0, 4, 0x67, 0x41, 0x4D, 0x41, 0, 1, 134, 160] } {}
    { first_chunk := false } rfl rfl

/-- C10: an append to the sliding window that would pass the limit returns
−1 and changes nothing; otherwise it copies exactly the given bytes at the
current offset, advances the offset by their number and keeps
`sliding_window_off ≤ sliding_window_limit`, as the claim says. -/
theorem C10_append_preserves_window_invariant (buf : LibImageZlibBuffer)
    (value : List Nat)
    (h1 : buf.sliding_window_off ≤ buf.sliding_window_limit)
    (h2 : buf.sliding_window_limit ≤ buf.sliding_window.length) :
    zbuf_append_spec buf value := by
  unfold zbuf_append_spec zbuf_append_to_sliding_window
  constructor
  · intro hov
    rw [if_pos hov]
  · intro hle
    rw [if_neg (by omega)]
    have hwlen : (buf.sliding_window.take buf.sliding_window_off).length =
        buf.sliding_window_off := by
      simp
      omega
    refine ⟨rfl, rfl, ?_, ?_, ?_, ?_, ?_⟩
    · simp only
      omega
    · simp only [List.length_append, List.length_take, List.length_drop]
      omega
    · intro i hi
      simp only [List.getD_eq_getElem?_getD, List.getElem?_append,
        List.length_append, hwlen]
      rw [if_pos (by omega), if_neg (by omega), Nat.add_sub_cancel_left]
    · intro i hi
      simp only [List.getD_eq_getElem?_getD, List.getElem?_append,
        List.length_append, hwlen]
      rw [if_pos (by omega), if_pos (by omega), List.getElem?_take,
        if_pos (by omega)]
    · intro i hi
      simp only [List.getD_eq_getElem?_getD, List.getElem?_append,
        List.length_append, hwlen]
      rw [if_neg (by omega), List.getElem?_drop,
        Nat.add_sub_cancel' (by omega : buf.sliding_window_off + value.length ≤ i)]

/-- Witness for C10 on a 4-byte window with offset 1, limit 3 and a 2-byte
append. -/
theorem C10_append_preserves_window_invariant_witness :
    zbuf_append_spec
      { sliding_window := [9, 9, 9, 9], sliding_window_off := 1,
        sliding_window_limit := 3 } [7, 8] :=
  C10_append_preserves_window_invariant
    { sliding_window := [9, 9, 9, 9], sliding_window_off := 1,
      sliding_window_limit := 3 } [7, 8] (by decide) (by decide)

end Libimage
